import Mathlib

/-!
# Verification of the SQLite → PostgreSQL migrator

A shallow embedding of `src/migrator.py` (repository `openwebui-migrator`).
Python strings are modelled by Lean `String`; the handful of Python string
methods the program uses (`lower`, `upper`, `strip`, `split(',')`,
`replace("'", "''")`, `startswith('_')`) are embedded explicitly below, over
`String.data`, so that proofs can proceed by list induction.

SQLite cell values reaching the row-translation loop are `None`, integers or
strings in this program; they are modelled by the inductive type `SVal`.
A Python exception escaping the row loop (the `AttributeError` raised by
calling `.split` on a non-string) is modelled by `Except.error`.
-/

/-- A raw SQLite cell value as seen by the row loop of `migrate`:
`None`, an integer, or a string. -/
inductive SVal where
  | null : SVal
  | int (i : Int) : SVal
  | str (s : String) : SVal
deriving DecidableEq, Repr

/-- Python `s.lower()` (ASCII case folding, which is all the program relies on). -/
def lowerStr (s : String) : String := ⟨s.data.map Char.toLower⟩

/-- Python `s.upper()` (ASCII case folding, which is all the program relies on). -/
def upperStr (s : String) : String := ⟨s.data.map Char.toUpper⟩

/-- Python `s.replace(chr(39), chr(39)+chr(39))`: every single-quote character
is replaced by two single-quote characters; no other character changes. -/
def pyReplaceQuote (s : String) : String :=
  ⟨(s.data.map (fun c => if c = '\'' then ['\'', '\''] else [c])).flatten⟩

/-- The ASCII whitespace characters removed by Python `str.strip()`. -/
def isPyWhitespace (c : Char) : Bool :=
  c = ' ' || c = '\t' || c = '\n' || c = '\r' || c = '\x0c' || c = '\x0b'

/-- Python `s.strip()`: drop leading and trailing whitespace. -/
def pyStrip (s : String) : String :=
  ⟨((s.data.dropWhile isPyWhitespace).reverse.dropWhile isPyWhitespace).reverse⟩

/-- Helper for `pySplitComma`: accumulates the current piece (reversed). -/
def splitCommaAux : List Char → List Char → List String
  | [], acc => [⟨acc.reverse⟩]
  | c :: cs, acc =>
      if c = ',' then ⟨acc.reverse⟩ :: splitCommaAux cs []
      else splitCommaAux cs (c :: acc)

/-- Python `s.split(',')`: split on every comma; `"".split(',') = [""]`,
and empty pieces are kept. -/
def pySplitComma (s : String) : List String := splitCommaAux s.data []

/-- Python `s.startswith('_')`. -/
def pyStartsWithUnderscore (s : String) : Bool := s.data.head? = some '_'

/-- The fixed type table of `sqlite_to_pg_type` (`migrator.py` lines 14-23). -/
def type_mapping : List (String × String) :=
  [("INTEGER", "INTEGER"),
   ("REAL", "DOUBLE PRECISION"),
   ("TEXT", "TEXT"),
   ("BLOB", "BYTEA"),
   ("BOOLEAN", "BOOLEAN"),
   ("TIMESTAMP", "TIMESTAMP"),
   ("JSON", "JSONB"),
   ("VARCHAR(255)", "VARCHAR(255)")]

/-- `sqlite_to_pg_type` (`migrator.py` lines 7-24): the `scope` column-name
override first, then the fixed table on the uppercased type, defaulting to
`TEXT` (`dict.get(sqlite_type, 'TEXT')`). -/
def sqlite_to_pg_type (sqliteType : String) (columnName : String) : String :=
  if lowerStr columnName = "scope" then "TEXT[]"
  else
    match type_mapping.lookup (upperStr sqliteType) with
    | some t => t
    | none => "TEXT"

/-- The reserved-keyword list of `get_safe_identifier` (`migrator.py` lines 28-38). -/
def reserved_keywords : List String :=
  ["user", "group", "order", "table", "select", "where", "from", "index", "constraint"]

/-- `get_safe_identifier` (`migrator.py` lines 26-39): wrap in double quotes
iff the lowercased identifier is in the reserved list. -/
def get_safe_identifier (identifier : String) : String :=
  if lowerStr identifier ∈ reserved_keywords then "\"" ++ identifier ++ "\""
  else identifier

/-- Python `value == 1` on an SQLite cell value: true exactly for the
integer `1` (a string never compares equal to the number `1`). -/
def svalEqOne : SVal → Bool
  | .int i => i == 1
  | _ => false

/-- Python truthiness test `not value` on an SQLite cell value: `None`,
`0` and `""` are falsy. -/
def svalFalsy : SVal → Bool
  | .null => true
  | .int i => i == 0
  | .str s => s == ""

/-- Python `str(value)` for the non-string values the final branch of the
row loop can receive (integers; `None` never reaches it). -/
def pyStr : SVal → String
  | .null => "None"
  | .int i => toString i
  | .str s => s

/-- The body of the row-translation loop of `migrate` for one
`(col_name, value)` pair (`migrator.py` lines 145-160), with
`colType = pg_column_types.get(col_name)`. The `ARRAY` branch calls
`value.split(',')`, which raises `AttributeError` on a non-string truthy
value; that exception is the `Except.error` case. -/
def translateValue (colType : Option String) (value : SVal) : Except String String :=
  if value = .null then .ok "NULL"
  else if colType = some "boolean" then
    .ok (if svalEqOne value then "true" else "false")
  else if colType = some "ARRAY" then
    if svalFalsy value then .ok "NULL"
    else
      match value with
      | .str s =>
          .ok ("ARRAY[" ++
            String.intercalate ","
              ((pySplitComma s).map
                (fun v => "'" ++ pyReplaceQuote (pyStrip v) ++ "'")) ++ "]")
      | _ => .error "AttributeError: value has no attribute split"
  else
    match value with
    | .str s => .ok ("'" ++ pyReplaceQuote s ++ "'")
    | v => .ok (pyStr v)

/-- The row loop of `migrate` over `zip(column_names, row)`
(`migrator.py` lines 142-160), pairs already zipped: translate each pair in
order, propagating the first exception. -/
def translateRowAux (pgColumnTypes : List (String × String)) :
    List (String × SVal) → Except String (List String)
  | [] => .ok []
  | (cn, v) :: rest =>
      match translateValue (pgColumnTypes.lookup cn) v with
      | .error e => .error e
      | .ok s =>
          match translateRowAux pgColumnTypes rest with
          | .error e => .error e
          | .ok ss => .ok (s :: ss)

/-- Row translation for one row: Python `zip(column_names, row)` truncates to
the shorter sequence, exactly as `List.zip` does. -/
def translateRow (columnNames : List String) (row : List SVal)
    (pgColumnTypes : List (String × String)) : Except String (List String) :=
  translateRowAux pgColumnTypes (columnNames.zip row)

/-- The per-table decision of `migrate`, extracted from its control flow:
lines 79-81 (bookkeeping-table skip), 92-97 (populated-destination skip),
122 (create only when the table is absent). -/
inductive TableMigrationDecision where
  | skip : TableMigrationDecision
  | createAndMigrate : TableMigrationDecision
  | migrateIntoExisting : TableMigrationDecision
deriving DecidableEq, Repr

/-- The planner: the decision `migrate` takes for one table, as a function of
the table name, destination existence and destination row count (the row
count is only consulted when the table exists, exactly as in the code). -/
def plan (tableName : String) (destExists : Bool) (destRowCount : Nat) :
    TableMigrationDecision :=
  if tableName = "migratehistory" ∨ tableName = "alembic_version" then .skip
  else if destExists = true ∧ destRowCount > 0 then .skip
  else if destExists = true then .migrateIntoExisting
  else .createAndMigrate

/-- Normalization of one destination column type (`migrator.py` line 113):
`'ARRAY' if udt_name.startswith('_') else data_type`. -/
def pgNormalizeType (dataType : String) (udtName : String) : String :=
  if pyStartsWithUnderscore udtName then "ARRAY" else dataType

/-- The `pg_column_types` dictionary (`migrator.py` lines 111-113) built from
the destination's `information_schema.columns` rows
`(column_name, data_type, udt_name)`. -/
def buildPgColumnTypes (destColumns : List (String × String × String)) :
    List (String × String) :=
  destColumns.map (fun c => (c.1, pgNormalizeType c.2.1 c.2.2))

/-- The create-table statement (`migrator.py` lines 122-128), built from the
SQLite schema `(name, declaredType)` via `get_safe_identifier` and
`sqlite_to_pg_type`. -/
def createTableSQL (tableName : String) (sqliteSchema : List (String × String)) :
    String :=
  "CREATE TABLE IF NOT EXISTS " ++ get_safe_identifier tableName ++ " (" ++
    String.intercalate ", "
      (sqliteSchema.map (fun c => get_safe_identifier c.1 ++ " " ++
        sqlite_to_pg_type c.2 c.1)) ++ ")"

/-- One insert statement (`migrator.py` lines 139, 162-163). -/
def insertSQL (tableName : String) (columnNames : List String)
    (vals : List String) : String :=
  "INSERT INTO " ++ get_safe_identifier tableName ++ " (" ++
    String.intercalate ", " (columnNames.map get_safe_identifier) ++
    ") VALUES (" ++ String.intercalate ", " vals ++ ")"

/-- The insert statements of the row loop, one per source row, in row order;
the first row-translation exception aborts the table (`migrator.py`
lines 137-170). -/
def insertStatements (tableName : String) (columnNames : List String)
    (rows : List (List SVal)) (pgColumnTypes : List (String × String)) :
    Except String (List String) :=
  match rows with
  | [] => .ok []
  | row :: rest =>
      match translateRow columnNames row pgColumnTypes with
      | .error e => .error e
      | .ok vals =>
          match insertStatements tableName columnNames rest pgColumnTypes with
          | .error e => .error e
          | .ok stmts => .ok (insertSQL tableName columnNames vals :: stmts)

/-- The destination-mutating statements `migrate` issues for one table
(`migrator.py` lines 74-170), in order. Inputs: the SQLite schema
`(name, declaredType)` (column names of `SELECT *` are the schema names, in
order), the source rows, whether the table exists at the destination, its
row count there, and the `information_schema.columns` rows the destination
reports for the table name — the code reads these BEFORE any create-table
statement, so for an absent table the destination reports none. -/
def migrateTable (tableName : String) (sqliteSchema : List (String × String))
    (rows : List (List SVal)) (destExists : Bool) (destRowCount : Nat)
    (destColumns : List (String × String × String)) :
    Except String (List String) :=
  if tableName = "migratehistory" ∨ tableName = "alembic_version" then .ok []
  else if destExists = true ∧ destRowCount > 0 then .ok []
  else
    let pgColumnTypes := buildPgColumnTypes destColumns
    let columnNames := sqliteSchema.map Prod.fst
    let createStmts :=
      if destExists = true then [] else [createTableSQL tableName sqliteSchema]
    match insertStatements tableName columnNames rows pgColumnTypes with
    | .error e => .error e
    | .ok inserts => .ok (createStmts ++ inserts)

/-- C1: for every (column, value) pair where the value is a non-NULL string
and the column's destination kind is neither boolean nor array, the emitted
literal is the value with every embedded single quote doubled
(`pyReplaceQuote`, the embedding of `value.replace(chr(39), chr(39)+chr(39))`
— doubling is the only escaping applied), wrapped in single quotes. -/
theorem text_value_quote_doubling (ct : Option String) (s : String)
    (hb : ct ≠ some "boolean") (ha : ct ≠ some "ARRAY") :
    translateValue ct (SVal.str s) = .ok ("'" ++ pyReplaceQuote s ++ "'") := by
  simp [translateValue, hb, ha]

/-- Witness for C1: the text value `O'Brien` is emitted as `'O''Brien'`. -/
theorem text_value_quote_doubling_witness :
    translateValue (some "text") (SVal.str "O'Brien") = .ok "'O''Brien'" := by
  rw [text_value_quote_doubling (some "text") "O'Brien" (by decide) (by decide)]
  rfl

/-- C2: for a column of destination kind array, a NULL or empty raw value is
emitted as `NULL`; a non-empty string is split on commas, each piece is
trimmed, has its single quotes doubled and is wrapped in single quotes, and
the result is `ARRAY[...]` with the pieces in their original order. -/
theorem array_value_translation (s : String) :
    translateValue (some "ARRAY") SVal.null = .ok "NULL" ∧
    translateValue (some "ARRAY") (SVal.str "") = .ok "NULL" ∧
    (s ≠ "" → translateValue (some "ARRAY") (SVal.str s) =
      .ok ("ARRAY[" ++
        String.intercalate ","
          ((pySplitComma s).map
            (fun v => "'" ++ pyReplaceQuote (pyStrip v) ++ "'")) ++ "]")) := by
  refine ⟨rfl, rfl, fun hs => ?_⟩
  simp [translateValue, svalFalsy, hs]

/-- Witness for C2: the raw value `a,b,c` yields `ARRAY['a','b','c']`. -/
theorem array_value_translation_witness :
    translateValue (some "ARRAY") (SVal.str "a,b,c") = .ok "ARRAY['a','b','c']" := by
  rw [(array_value_translation "a,b,c").2.2 (by decide)]
  rfl

/-- C3: for a column of destination kind boolean, every non-NULL raw value is
emitted as `true` exactly when it numerically equals 1, and as `false`
otherwise (including 0, 2, negative integers and strings). -/
theorem boolean_value_translation (v : SVal) (h : v ≠ SVal.null) :
    translateValue (some "boolean") v =
      .ok (if v = SVal.int 1 then "true" else "false") := by
  cases v with
  | null => exact absurd rfl h
  | int i =>
      by_cases hi : i = 1 <;> simp [translateValue, svalEqOne, hi]
  | str s => simp [translateValue, svalEqOne]

/-- Witness for C3: the boolean-column value 2 is emitted as `false`. -/
theorem boolean_value_translation_witness :
    translateValue (some "boolean") (SVal.int 2) = .ok "false" := by
  rw [boolean_value_translation (SVal.int 2) (by decide)]
  rfl

/-- C8: the identifier sanitizer wraps the identifier in double quotes exactly
when its lowercased form is in the fixed reserved list, and returns it
unchanged otherwise; it is a total function. -/
theorem identifier_sanitizer_spec (idn : String) :
    (lowerStr idn ∈ reserved_keywords →
      get_safe_identifier idn = "\"" ++ idn ++ "\"") ∧
    (lowerStr idn ∉ reserved_keywords → get_safe_identifier idn = idn) := by
  constructor <;> intro h <;> simp [get_safe_identifier, h]

/-- Witness for C8: `User` (reserved, case-insensitively) is quoted, `name`
(not reserved) is unchanged. -/
theorem identifier_sanitizer_spec_witness :
    get_safe_identifier "User" = "\"User\"" ∧ get_safe_identifier "name" = "name" :=
  ⟨(identifier_sanitizer_spec "User").1 (by decide),
   (identifier_sanitizer_spec "name").2 (by decide)⟩

/-- C4: the type mapper returns `TEXT[]` whenever the lowercased column name
is `scope` (regardless of source type); otherwise it maps the uppercased
source type through the fixed table
INTEGER→INTEGER, REAL→DOUBLE PRECISION, TEXT→TEXT, BLOB→BYTEA,
BOOLEAN→BOOLEAN, TIMESTAMP→TIMESTAMP, JSON→JSONB, VARCHAR(255)→VARCHAR(255),
defaulting to TEXT for anything else; it always returns a value, rules in
this order, first match wins. -/
theorem type_mapper_total_spec (st cn : String) :
    (lowerStr cn = "scope" → sqlite_to_pg_type st cn = "TEXT[]") ∧
    (lowerStr cn ≠ "scope" → sqlite_to_pg_type st cn =
      if upperStr st = "INTEGER" then "INTEGER"
      else if upperStr st = "REAL" then "DOUBLE PRECISION"
      else if upperStr st = "TEXT" then "TEXT"
      else if upperStr st = "BLOB" then "BYTEA"
      else if upperStr st = "BOOLEAN" then "BOOLEAN"
      else if upperStr st = "TIMESTAMP" then "TIMESTAMP"
      else if upperStr st = "JSON" then "JSONB"
      else if upperStr st = "VARCHAR(255)" then "VARCHAR(255)"
      else "TEXT") := by
  constructor
  · intro h
    simp [sqlite_to_pg_type, h]
  · intro h
    simp only [sqlite_to_pg_type, h, if_false, type_mapping, List.lookup]
    split_ifs with h1 h2 h3 h4 h5 h6 h7 h8
    · simp_all [beq_iff_eq]
    · simp_all [beq_iff_eq]
    · simp_all [beq_iff_eq]
    · simp_all [beq_iff_eq]
    · simp_all [beq_iff_eq]
    · simp_all [beq_iff_eq]
    · simp_all [beq_iff_eq]
    · simp_all [beq_iff_eq]
    · rw [beq_eq_false_iff_ne.mpr h1, beq_eq_false_iff_ne.mpr h2,
        beq_eq_false_iff_ne.mpr h3, beq_eq_false_iff_ne.mpr h4,
        beq_eq_false_iff_ne.mpr h5, beq_eq_false_iff_ne.mpr h6,
        beq_eq_false_iff_ne.mpr h7, beq_eq_false_iff_ne.mpr h8]

/-- Witness for C4: the scope override beats the type table, and an unknown
type falls back to TEXT. -/
theorem type_mapper_total_spec_witness :
    sqlite_to_pg_type "BLOB" "Scope" = "TEXT[]" ∧
    sqlite_to_pg_type "FOOBAR" "x" = "TEXT" := by
  constructor
  · exact (type_mapper_total_spec "BLOB" "Scope").1 (by decide)
  · rw [(type_mapper_total_spec "FOOBAR" "x").2 (by decide)]
    decide

/-- C5: the planner skips bookkeeping tables irrespective of destination
state; otherwise skips a populated existing destination table; otherwise
migrates into an existing empty table; otherwise creates and migrates — in
exactly that order. -/
theorem planner_decision_order (tn : String) (de : Bool) (rc : Nat) :
    ((tn = "migratehistory" ∨ tn = "alembic_version") →
      plan tn de rc = .skip) ∧
    (¬(tn = "migratehistory" ∨ tn = "alembic_version") →
      de = true → rc > 0 → plan tn de rc = .skip) ∧
    (¬(tn = "migratehistory" ∨ tn = "alembic_version") →
      de = true → ¬(rc > 0) → plan tn de rc = .migrateIntoExisting) ∧
    (¬(tn = "migratehistory" ∨ tn = "alembic_version") →
      de = false → plan tn de rc = .createAndMigrate) := by
  refine ⟨fun h => ?_, fun h hde hrc => ?_, fun h hde hrc => ?_, fun h hde => ?_⟩
  · rcases h with h | h <;> simp [plan, h]
  · simp [plan, h, hde, hrc]
  · have h0 : rc = 0 := Nat.eq_zero_of_not_pos hrc
    simp [plan, h, hde, h0]
  · simp [plan, h, hde]

/-- Witness for C5: one concrete instance of each of the four rules. -/
theorem planner_decision_order_witness :
    plan "alembic_version" true 5 = .skip ∧
    plan "users" true 3 = .skip ∧
    plan "users" true 0 = .migrateIntoExisting ∧
    plan "users" false 0 = .createAndMigrate :=
  ⟨(planner_decision_order "alembic_version" true 5).1 (by decide),
   (planner_decision_order "users" true 3).2.1 (by decide) rfl (by decide),
   (planner_decision_order "users" true 0).2.2.1 (by decide) rfl (by decide),
   (planner_decision_order "users" false 0).2.2.2 (by decide) rfl⟩

/-- C6: a table that exists at the destination with a positive row count is
never migrated — `migrate` issues no create-table and no insert statement
for it. -/
theorem populated_destination_never_migrated (tn : String)
    (schema : List (String × String)) (rows : List (List SVal))
    (rc : Nat) (cols : List (String × String × String)) (h : rc > 0) :
    migrateTable tn schema rows true rc cols = .ok [] := by
  by_cases htn : tn = "migratehistory" ∨ tn = "alembic_version" <;>
    simp [migrateTable, htn, h]

/-- Witness for C6: a populated destination table yields no statements. -/
theorem populated_destination_never_migrated_witness :
    migrateTable "users" [("id", "INTEGER")] [[SVal.int 1]] true 3 [] = .ok [] :=
  populated_destination_never_migrated "users" [("id", "INTEGER")]
    [[SVal.int 1]] 3 [] (by decide)

/-- Link between the extracted planner and the statement generator: whenever
the planner decides to skip, `migrate` issues no statements for the table. -/
theorem migrateTable_skip_link (tn : String) (schema : List (String × String))
    (rows : List (List SVal)) (de : Bool) (rc : Nat)
    (cols : List (String × String × String))
    (h : plan tn de rc = .skip) :
    migrateTable tn schema rows de rc cols = .ok [] := by
  unfold plan at h
  by_cases h1 : tn = "migratehistory" ∨ tn = "alembic_version"
  · simp [migrateTable, h1]
  · rw [if_neg h1] at h
    by_cases h2 : de = true ∧ rc > 0
    · simp [migrateTable, h1, h2]
    · exfalso
      rw [if_neg h2] at h
      by_cases h3 : de = true
      · rw [if_pos h3] at h
        exact TableMigrationDecision.noConfusion h
      · rw [if_neg h3] at h
        exact TableMigrationDecision.noConfusion h

/-- C7: in the end-to-end scenario (source table
`orders(id INTEGER, name TEXT, scope TEXT)` with the row
`(1, "A's", "read,write")` and no such table at the destination), the
create-table statement does map `scope` to the array type, but the single
insert carries the plain literal `'read,write'` rather than
`ARRAY['read','write']`: `migrate` reads `pg_column_types` from
`information_schema.columns` BEFORE executing the create-table statement, so
for a freshly created table the type map is empty and the array branch of
the row translator is never reached. -/
theorem end_to_end_new_table_array_lost :
    migrateTable "orders" [("id", "INTEGER"), ("name", "TEXT"), ("scope", "TEXT")]
      [[SVal.int 1, SVal.str "A's", SVal.str "read,write"]] false 0 [] =
      .ok ["CREATE TABLE IF NOT EXISTS orders (id INTEGER, name TEXT, scope TEXT[])",
           "INSERT INTO orders (id, name, scope) VALUES (1, 'A''s', 'read,write')"] ∧
    "INSERT INTO orders (id, name, scope) VALUES (1, 'A''s', 'read,write')" ≠
      "INSERT INTO orders (id, name, scope) VALUES (1, 'A''s', ARRAY['read','write'])" :=
  ⟨rfl, by decide⟩

/-- Auxiliary for C9: a successful run of the row loop yields exactly one
literal per translated pair. -/
theorem translateRowAux_length (types : List (String × String)) :
    ∀ (ps : List (String × SVal)) (out : List String),
      translateRowAux types ps = .ok out → out.length = ps.length := by
  intro ps
  induction ps with
  | nil =>
      intro out h
      simp only [translateRowAux] at h
      injection h with h2
      simp [← h2]
  | cons p rest ih =>
      intro out h
      obtain ⟨cn, v⟩ := p
      simp only [translateRowAux] at h
      cases htv : translateValue (types.lookup cn) v with
      | error e => rw [htv] at h; simp at h
      | ok s =>
          rw [htv] at h
          cases hrest : translateRowAux types rest with
          | error e => rw [hrest] at h; simp at h
          | ok ss =>
              rw [hrest] at h
              simp only [Except.ok.injEq] at h
              subst h
              simp [ih ss hrest]

/-- Auxiliary for C9: the i-th literal of a successful run of the row loop is
the translation of the i-th pair. -/
theorem translateRowAux_get (types : List (String × String)) :
    ∀ (ps : List (String × SVal)) (out : List String),
      translateRowAux types ps = .ok out →
      ∀ (i : Nat) (cn : String) (v : SVal), ps[i]? = some (cn, v) →
        ∃ s, out[i]? = some s ∧ translateValue (types.lookup cn) v = .ok s := by
  intro ps
  induction ps with
  | nil => intro out h i cn v hp; simp at hp
  | cons p rest ih =>
      intro out h i cn v hp
      obtain ⟨cn0, v0⟩ := p
      simp only [translateRowAux] at h
      cases htv : translateValue (types.lookup cn0) v0 with
      | error e => rw [htv] at h; simp at h
      | ok s =>
          rw [htv] at h
          cases hrest : translateRowAux types rest with
          | error e => rw [hrest] at h; simp at h
          | ok ss =>
              rw [hrest] at h
              simp only [Except.ok.injEq] at h
              subst h
              cases i with
              | zero =>
                  simp only [List.getElem?_cons_zero, Option.some.injEq,
                    Prod.mk.injEq] at hp
                  obtain ⟨hcn, hv⟩ := hp
                  subst hcn; subst hv
                  exact ⟨s, by simp, htv⟩
              | succ n =>
                  simp only [List.getElem?_cons_succ] at hp ⊢
                  exact ih ss hrest n cn v hp

/-- Auxiliary for C9: indexing a zip from indexing the two lists. -/
theorem zip_get_of_get {α β : Type} (as : List α) :
    ∀ (bs : List β) (i : Nat) (a : α) (b : β),
      as[i]? = some a → bs[i]? = some b → (as.zip bs)[i]? = some (a, b) := by
  induction as with
  | nil => intro bs i a b ha hb; simp at ha
  | cons x xs ih =>
      intro bs i a b ha hb
      cases bs with
      | nil => simp at hb
      | cons y ys =>
          cases i with
          | zero => simp_all
          | succ n =>
              simp only [List.zip_cons_cons, List.getElem?_cons_succ] at ha hb ⊢
              exact ih ys n a b ha hb

/-- C9: for equally long column-name and value lists, a successful row
translation yields exactly one literal per input column, in the input's
column order (the i-th literal is the translation of the i-th column). -/
theorem row_translation_shape (names : List String) (row : List SVal)
    (types : List (String × String)) (out : List String)
    (hlen : names.length = row.length)
    (h : translateRow names row types = .ok out) :
    out.length = names.length ∧
    ∀ (i : Nat) (cn : String) (v : SVal),
      names[i]? = some cn → row[i]? = some v →
      ∃ s, out[i]? = some s ∧ translateValue (types.lookup cn) v = .ok s := by
  constructor
  · have hl := translateRowAux_length types (names.zip row) out h
    rw [List.length_zip, ← hlen, Nat.min_self] at hl
    exact hl
  · intro i cn v hcn hv
    exact translateRowAux_get types (names.zip row) out h i cn v
      (zip_get_of_get names row i cn v hcn hv)

/-- Witness for C9: a two-column row translates to two literals, in order. -/
theorem row_translation_shape_witness :
    [ "NULL", "'x'" ].length = ["a", "b"].length ∧
    ∃ s, ["NULL", "'x'"][1]? = some s ∧
      translateValue (List.lookup "b" []) (SVal.str "x") = .ok s := by
  have h := row_translation_shape ["a", "b"] [SVal.null, SVal.str "x"] []
    ["NULL", "'x'"] (by decide) rfl
  exact ⟨h.1.symm ▸ rfl, h.2 1 "b" (SVal.str "x") rfl rfl⟩

/-- Auxiliary for C10: the character data of a double-quoted identifier. -/
theorem quoted_data (s : String) :
    ("\"" ++ s ++ "\"").data = '"' :: (s.data ++ ['"']) := by
  rw [String.data_append, String.data_append]
  rfl

/-- Auxiliary for C10: a double-quoted identifier still starts with a double
quote after lowercasing. -/
theorem lowered_quoted_head (s : String) :
    (lowerStr ("\"" ++ s ++ "\"")).data.head? = some '"' := by
  show ((("\"" ++ s ++ "\"").data).map Char.toLower).head? = some '"'
  rw [quoted_data]
  rfl

/-- Auxiliary for C10: the lowercased form of a double-quoted identifier is
never in the reserved list, because every reserved word starts with a
letter, not a double quote. -/
theorem quoted_not_reserved (s : String) :
    lowerStr ("\"" ++ s ++ "\"") ∉ reserved_keywords := by
  intro hmem
  have hh := lowered_quoted_head s
  simp only [reserved_keywords, List.mem_cons, List.not_mem_nil, or_false] at hmem
  rcases hmem with h | h | h | h | h | h | h | h | h <;>
    rw [h] at hh <;> exact absurd hh (by decide)

/-- C10: the identifier sanitizer is idempotent — a quoted result such as
`"user"` is never itself reserved, so a second application returns it
unchanged. -/
theorem sanitizer_idempotent (s : String) :
    get_safe_identifier (get_safe_identifier s) = get_safe_identifier s := by
  by_cases h : lowerStr s ∈ reserved_keywords
  · have h1 : get_safe_identifier s = "\"" ++ s ++ "\"" := by
      simp [get_safe_identifier, h]
    rw [h1]
    simp [get_safe_identifier, quoted_not_reserved s]
  · simp [get_safe_identifier, h]
